import Mathlib

/-!
Shallow embedding of the schema-gen pipeline: the `PropertyType` IR produced
by the TypeScript parser (src/parser/parser.ts), the Zod code generator
(src/generator/zod), the TypeBox/Elysia code generator
(src/generator/type-box-generator), and the generator factory of the
`SchemaGen` pipeline (src/gen/schema-gen.ts).  Machine strings are Lean
`String`s; TypeScript numeric literal values are modelled as `Int` (every
literal exercised by the repository is an integer, and `String(n)` on an
integer agrees with `Int` printing).  Fallible TypeScript code (functions
that `throw new Error(...)`) is modelled with `Except String`.
-/

/-- The primitive kinds of the IR: `'string' | 'number' | 'boolean' | 'Date'
| 'null' | 'undefined' | 'any'` from src/types/property.  The TypeScript
literal type name `Date` is rendered here as `date`, `null` as `nullKind`
to avoid clashing with Lean core names. -/
inductive PrimitiveKind where
  | string
  | number
  | boolean
  | date
  | nullKind
  | undefined
  | any
deriving DecidableEq, Repr

/-- A literal value `string | number | boolean`.  Numbers are modelled as
integers (see the header note). -/
inductive LiteralValue where
  | str (s : String)
  | num (n : Int)
  | bool (b : Bool)
deriving DecidableEq, Repr

mutual
/-- The closed `PropertyType` discriminated union of src/types/property. -/
inductive PropertyType where
  | primitive (type : PrimitiveKind)
  | array (elementType : PropertyType)
  | object (properties : List Property)
  | union (types : List PropertyType)
  | intersection (types : List PropertyType)
  | literal (value : LiteralValue)
  | record (keyType : PropertyType) (valueType : PropertyType)
  | templateLiteral (elements : List PropertyType)
  | never

/-- The `Property` record of src/types/property:
name, type, isOptional, isReadonly, hasDefaultValue. -/
inductive Property where
  | mk (name : String) (type : PropertyType) (isOptional : Bool)
      (isReadonly : Bool) (hasDefaultValue : Bool)
end

/-- Accessor for the `name` field of a `Property`. -/
def Property.name : Property → String
  | .mk n _ _ _ _ => n

/-- Accessor for the `type` field of a `Property`. -/
def Property.type : Property → PropertyType
  | .mk _ t _ _ _ => t

/-- Accessor for the `isOptional` field of a `Property`. -/
def Property.isOptional : Property → Bool
  | .mk _ _ o _ _ => o

/-- The `ParsedClass` record of src/types/class. -/
structure ParsedClass where
  name : String
  filePath : String
  isExported : Bool
  properties : List Property

/-- JavaScript `typeof` on a literal value, as used by the generators
(`typeof v === 'string'` and so on). -/
def typeofLiteral : LiteralValue → String
  | .str _ => "string"
  | .num _ => "number"
  | .bool _ => "boolean"

/-- Discriminates literal IR nodes, mirroring `t.kind === 'literal'`. -/
def isLiteralKind : PropertyType → Bool
  | .literal _ => true
  | _ => false

/-- The `value` field access `t.value` performed by the TypeBox generator
under its every-member-is-a-literal guard; the default branch is
unreachable under that guard (TypeScript narrows the same way). -/
def literalValueOf : PropertyType → LiteralValue
  | .literal v => v
  | _ => .str ""

/-- Discriminates the `never` IR node, mirroring `kind === 'never'`. -/
def PropertyType.isNeverKind : PropertyType → Bool
  | .never => true
  | _ => false

/-! ## ZodGenerator (src/generator/zod/zod-generator.ts) -/

/-- `ZodGenerator.getImports`. -/
def zGetImports : List String := ["import \x7b z \x7d from \"zod\""]

/-- `ZodGenerator.generateSchemaName`: lower-case the first character and
append the `Schema` suffix (`charAt(0).toLowerCase() + slice(1)`; on the
empty string both pieces are empty). -/
def zGenerateSchemaName (className : String) : String :=
  match className.data with
  | [] => "Schema"
  | c :: rest => String.mk (Char.toLower c :: rest) ++ "Schema"

/-- `ZodGenerator.generatePrimitiveType`. -/
def zPrimitiveType : PrimitiveKind → String
  | .string => "z.string()"
  | .number => "z.number()"
  | .boolean => "z.boolean()"
  | .date => "z.date()"
  | .nullKind => "z.null()"
  | .undefined => "z.undefined()"
  | .any => "z.any()"

/-- `ZodGenerator.generateLiteralType`: string values single-quoted, other
values via their textual form. -/
def zLiteralType : LiteralValue → String
  | .str s => "z.literal(\x27" ++ s ++ "\x27)"
  | .num n => "z.literal(" ++ toString n ++ ")"
  | .bool b => "z.literal(" ++ (if b then "true" else "false") ++ ")"

mutual
/-- `ZodGenerator.generateType`: the recursive renderer over the IR.  The
helper methods `generateObjectType`, `generateUnionType` and
`generateIntersectionType` of the source are inlined into their match
arms here (standalone equal definitions follow below). -/
def zType : PropertyType → String
  | .primitive k => zPrimitiveType k
  | .array elementType => "z.array(" ++ zType elementType ++ ")"
  | .object properties =>
      "z.object(\x7b\n" ++ String.intercalate ",\n" (zPropertyList properties) ++ "\n\x7d)"
  | .union types => "z.union([" ++ String.intercalate ", " (zTypeList types) ++ "])"
  | .literal value => zLiteralType value
  | .record keyType valueType =>
      "z.record(" ++ zType keyType ++ ", " ++ zType valueType ++ ")"
  | .intersection types =>
      match types with
      | [] => "z.never()"
      | [t] => zType t
      | first :: second :: rest =>
          (zTypeList rest).foldl
            (fun code c => "z.intersection(" ++ code ++ ", " ++ c ++ ")")
            ("z.intersection(" ++ zType first ++ ", " ++ zType second ++ ")")
  | .templateLiteral _ => "z.string()"
  | .never => "z.never()"

/-- `ZodGenerator.generateProperty`: optional properties get the trailing
`.optional()` marker appended after the rendered base type. -/
def zProperty : Property → String
  | .mk name type isOptional _ _ =>
      let typeCode := zType type
      let code := if isOptional then typeCode ++ ".optional()" else typeCode
      "  " ++ name ++ ": " ++ code

/-- Renders each property in order (`properties.map(generateProperty)`). -/
def zPropertyList : List Property → List String
  | [] => []
  | p :: ps => zProperty p :: zPropertyList ps

/-- Renders each member type in order (`types.map(generateType)`). -/
def zTypeList : List PropertyType → List String
  | [] => []
  | t :: ts => zType t :: zTypeList ts
end

/-- `ZodGenerator.generateObjectType`, standalone. -/
def zObjectType (properties : List Property) : String :=
  "z.object(\x7b\n" ++ String.intercalate ",\n" (zPropertyList properties) ++ "\n\x7d)"

/-- `ZodGenerator.generateUnionType`, standalone (no enum optimization on
this backend). -/
def zUnionType (types : List PropertyType) : String :=
  "z.union([" ++ String.intercalate ", " (zTypeList types) ++ "])"

/-- `ZodGenerator.generateIntersectionType`, standalone: empty list renders
`z.never()`, a single member renders bare, two or more members are
left-folded into nested binary `z.intersection` calls. -/
def zIntersectionType : List PropertyType → String
  | [] => "z.never()"
  | [t] => zType t
  | first :: second :: rest =>
      (zTypeList rest).foldl
        (fun code c => "z.intersection(" ++ code ++ ", " ++ c ++ ")")
        ("z.intersection(" ++ zType first ++ ", " ++ zType second ++ ")")

/-- `ZodGenerator.generate`: imports, blank line, then the exported schema
declaration built with the object-rendering rule at the top level. -/
def zGenerate (parsedClass : ParsedClass) : String :=
  let imports := String.intercalate "\n" zGetImports
  let schemaName := zGenerateSchemaName parsedClass.name
  let properties := String.intercalate ",\n" (zPropertyList parsedClass.properties)
  imports ++ "\n\nexport const " ++ schemaName ++ " = z.object(\x7b \n" ++ properties ++ " \x7d);"

/-! ## TypeBoxGenerator (src/generator/type-box-generator.ts) -/

/-- The constructor argument of `TypeBoxGenerator`: `'typebox' | 'elysia'`. -/
inductive TypeBoxKind where
  | typebox
  | elysia
deriving DecidableEq, Repr

/-- `TypeBoxGenerator.getImports`, dependent on the configured kind. -/
def tbGetImports : TypeBoxKind → List String
  | .typebox => ["import \x7b Type as t \x7d from \"@sinclair/typebox\""]
  | .elysia => ["import \x7b t \x7d from \"elysia\""]

/-- `TypeBoxGenerator.generateSchemaName` (same rule as the Zod backend). -/
def tbGenerateSchemaName (className : String) : String :=
  match className.data with
  | [] => "Schema"
  | c :: rest => String.mk (Char.toLower c :: rest) ++ "Schema"

/-- `TypeBoxGenerator.generatePrimitiveType`. -/
def tbPrimitiveType : PrimitiveKind → String
  | .string => "t.String()"
  | .number => "t.Number()"
  | .boolean => "t.Boolean()"
  | .date => "t.Date()"
  | .nullKind => "t.Null()"
  | .undefined => "t.Undefined()"
  | .any => "t.Any()"

/-- `TypeBoxGenerator.generateLiteralType`. -/
def tbLiteralType : LiteralValue → String
  | .str s => "t.Literal(\x27" ++ s ++ "\x27)"
  | .num n => "t.Literal(" ++ toString n ++ ")"
  | .bool b => "t.Literal(" ++ (if b then "true" else "false") ++ ")"

/-- The `t.UnionEnum` element form: string values single-quoted, other
values via `String(v)`. -/
def tbUnionEnumValue : LiteralValue → String
  | .str s => "\x27" ++ s ++ "\x27"
  | .num n => toString n
  | .bool b => if b then "true" else "false"

mutual
/-- `TypeBoxGenerator.generateType`: the recursive renderer over the IR.
The helper methods of the source are inlined into their match arms here
(standalone equal definitions follow below). -/
def tbType : PropertyType → String
  | .primitive k => tbPrimitiveType k
  | .array elementType => "t.Array(" ++ tbType elementType ++ ")"
  | .object properties =>
      "t.Object(\x7b\n" ++ String.intercalate ",\n" (tbPropertyList properties) ++ "\n\x7d)"
  | .union types =>
      if types.all isLiteralKind ∧ 0 < types.length then
        let literalValues := types.map literalValueOf
        match literalValues with
        | [] => "t.Union([" ++ String.intercalate ", " (tbTypeList types) ++ "])"
        | v0 :: _ =>
            if literalValues.all fun v => typeofLiteral v == typeofLiteral v0 then
              "t.UnionEnum([" ++ String.intercalate ", " (literalValues.map tbUnionEnumValue) ++ "])"
            else
              "t.Union([" ++ String.intercalate ", " (tbTypeList types) ++ "])"
      else
        "t.Union([" ++ String.intercalate ", " (tbTypeList types) ++ "])"
  | .literal value => tbLiteralType value
  | .record keyType valueType =>
      "t.Record(" ++ tbType keyType ++ ", " ++ tbType valueType ++ ")"
  | .intersection types => "t.Intersect([" ++ String.intercalate ", " (tbTypeList types) ++ "])"
  | .templateLiteral elements =>
      "t.TemplateLiteral([" ++ String.intercalate ", " (tbTypeList elements) ++ "])"
  | .never => "t.Never()"

/-- `TypeBoxGenerator.generateProperty`: optional properties are wrapped in
the `t.Optional(...)` wrapping-call form. -/
def tbProperty : Property → String
  | .mk name type isOptional _ _ =>
      let typeCode := tbType type
      let code := if isOptional then "t.Optional(" ++ typeCode ++ ")" else typeCode
      "  " ++ name ++ ": " ++ code

/-- Renders each property in order (`properties.map(generateProperty)`). -/
def tbPropertyList : List Property → List String
  | [] => []
  | p :: ps => tbProperty p :: tbPropertyList ps

/-- Renders each member type in order (`types.map(generateType)`). -/
def tbTypeList : List PropertyType → List String
  | [] => []
  | t :: ts => tbType t :: tbTypeList ts
end

/-- `TypeBoxGenerator.generateObjectType`, standalone. -/
def tbObjectType (properties : List Property) : String :=
  "t.Object(\x7b\n" ++ String.intercalate ",\n" (tbPropertyList properties) ++ "\n\x7d)"

/-- `TypeBoxGenerator.generateUnionType`, standalone: if every member is a
literal, the list is non-empty, and every literal value has the same
`typeof` as the first one, render the compact `t.UnionEnum` form;
otherwise render the generic `t.Union` over the recursively rendered
members in order. -/
def tbUnionType (types : List PropertyType) : String :=
  if types.all isLiteralKind ∧ 0 < types.length then
    let literalValues := types.map literalValueOf
    match literalValues with
    | [] => "t.Union([" ++ String.intercalate ", " (tbTypeList types) ++ "])"
    | v0 :: _ =>
        if literalValues.all fun v => typeofLiteral v == typeofLiteral v0 then
          "t.UnionEnum([" ++ String.intercalate ", " (literalValues.map tbUnionEnumValue) ++ "])"
        else
          "t.Union([" ++ String.intercalate ", " (tbTypeList types) ++ "])"
  else
    "t.Union([" ++ String.intercalate ", " (tbTypeList types) ++ "])"

/-- `TypeBoxGenerator.generateIntersectionType`, standalone: a single n-ary
`t.Intersect([...])` call over the rendered members. -/
def tbIntersectionType (types : List PropertyType) : String :=
  "t.Intersect([" ++ String.intercalate ", " (tbTypeList types) ++ "])"

/-- `TypeBoxGenerator.generateTemplateLiteralType`, standalone. -/
def tbTemplateLiteralType (elements : List PropertyType) : String :=
  "t.TemplateLiteral([" ++ String.intercalate ", " (tbTypeList elements) ++ "])"

/-- `TypeBoxGenerator.generate`. -/
def tbGenerate (kind : TypeBoxKind) (parsedClass : ParsedClass) : String :=
  let imports := String.intercalate "\n" (tbGetImports kind)
  let schemaName := tbGenerateSchemaName parsedClass.name
  let properties := String.intercalate ",\n" (tbPropertyList parsedClass.properties)
  imports ++ "\n\nexport const " ++ schemaName ++ " = t.Object(\x7b \n" ++ properties ++ " \x7d);"

/-! ## Parser (src/parser/parser.ts) -/

mutual
/-- A ts-morph `Type` handle, abstracted to the structural queries the
parser performs on it, in the order `parsePropertyType` consults them:
alias symbol name, alias type arguments, alias declared type (the unwrap
target), the primitive discriminators, the textual form (`getText()`),
the array element type (present exactly when `isArray()`), the
intersection/union member lists (present exactly when
`isIntersection()` / `isUnion()`), the literal value (present exactly
when `isLiteral()` holds with a string/number/boolean value), the object
discriminator, the string/number index signature value types, and the
named property symbols (name, declared type, optionality). -/
inductive TypeHandle where
  | mk (aliasName : Option String)
      (aliasTypeArguments : List TypeHandle)
      (aliasDeclaredType : Option TypeHandle)
      (isNeverT isAnyT isNullT isUndefinedT isStringT isNumberT isBooleanT : Bool)
      (getText : String)
      (arrayElementType : Option TypeHandle)
      (intersectionTypes : Option (List TypeHandle))
      (unionTypes : Option (List TypeHandle))
      (literalValue : Option LiteralValue)
      (isObjectT : Bool)
      (stringIndexType : Option TypeHandle)
      (numberIndexType : Option TypeHandle)
      (propertySymbols : List SymbolEntry)

/-- A property symbol of an object type handle: its name, its declared
type, and its own optionality flag. -/
inductive SymbolEntry where
  | mk (name : String) (type : TypeHandle) (isOptional : Bool)
end

mutual
/-- `Parser.parsePropertyType`: the ordered first-match-wins resolution of
a type handle into the IR.  Mirrors the source order: alias handling
(the two-argument `Record` alias resolves directly, any other alias with
a declared type unwraps and re-resolves), then `never`, the primitives,
the textual `Date` check, array, intersection, union, literal,
object-or-record, and finally the `Unsupported type` error. -/
def parsePropertyType : TypeHandle → Except String PropertyType
  | .mk aliasName aliasTypeArguments aliasDeclaredType nevT anyT nulT undT strT numT booT
      txt arrEl inters unis litV isObjT sIdx nIdx syms =>
    match aliasName, aliasTypeArguments, aliasDeclaredType with
    | some "Record", [arg0, arg1], _ => do
        let keyType ← parsePropertyType arg0
        let valueType ← parsePropertyType arg1
        pure (PropertyType.record keyType valueType)
    | some _, _, some declaredType => parsePropertyType declaredType
    | _, _, _ =>
        if nevT then pure PropertyType.never
        else if anyT then pure (PropertyType.primitive .any)
        else if nulT then pure (PropertyType.primitive .nullKind)
        else if undT then pure (PropertyType.primitive .undefined)
        else if strT then pure (PropertyType.primitive .string)
        else if numT then pure (PropertyType.primitive .number)
        else if booT then pure (PropertyType.primitive .boolean)
        else if txt = "Date" then pure (PropertyType.primitive .date)
        else
          match arrEl with
          | some elementType => do
              let el ← parsePropertyType elementType
              pure (PropertyType.array el)
          | none =>
            match inters with
            | some members => do
                let ts ← parsePropertyTypeList members
                pure (PropertyType.intersection ts)
            | none =>
              match unis with
              | some members => do
                  let ts ← parsePropertyTypeList members
                  pure (PropertyType.union ts)
              | none =>
                match litV with
                | some value => pure (PropertyType.literal value)
                | none =>
                  if isObjT then
                    match sIdx with
                    | some indexValue =>
                        if syms.isEmpty then do
                          let valueType ← parsePropertyType indexValue
                          pure (PropertyType.record (PropertyType.primitive .string) valueType)
                        else do
                          let props ← parsePropertySymbolList syms
                          pure (PropertyType.object props)
                    | none =>
                      match nIdx with
                      | some indexValue =>
                          if syms.isEmpty then do
                            let valueType ← parsePropertyType indexValue
                            pure (PropertyType.record (PropertyType.primitive .number) valueType)
                          else do
                            let props ← parsePropertySymbolList syms
                            pure (PropertyType.object props)
                      | none => do
                          let props ← parsePropertySymbolList syms
                          pure (PropertyType.object props)
                  else
                    Except.error ("Unsupported type: " ++ txt)

/-- Resolves each member handle in order (`members.map(parsePropertyType)`
with error propagation). -/
def parsePropertyTypeList : List TypeHandle → Except String (List PropertyType)
  | [] => pure []
  | h :: hs => do
      let t ← parsePropertyType h
      let ts ← parsePropertyTypeList hs
      pure (t :: ts)

/-- Resolves the named members of an object type: each symbol's declared
type is resolved recursively; optionality comes from the symbol's own
flag; `isReadonly` and `hasDefaultValue` are false on this path. -/
def parsePropertySymbolList : List SymbolEntry → Except String (List Property)
  | [] => pure []
  | .mk name typeHandle isOptional :: rest => do
      let t ← parsePropertyType typeHandle
      let ts ← parsePropertySymbolList rest
      pure (Property.mk name t isOptional false false :: ts)
end

/-- The member test used by the narrowing filter in `Parser.parseProperty`:
`t.kind === 'primitive' && (t.type === 'undefined' || t.type === 'null')`. -/
def isUndefinedOrNullPrimitive : PropertyType → Bool
  | .primitive .undefined => true
  | .primitive .nullKind => true
  | _ => false

/-- The optional-narrowing step of `Parser.parseProperty`: when the
property is optional and the resolved type is a union, the
undefined/null primitive members are filtered out; exactly one survivor
is stored directly, several survivors are stored as a union, and when
no member survives the original type is left unchanged. -/
def narrowOptionalType (isOptional : Bool) (propertyType : PropertyType) : PropertyType :=
  if isOptional then
    match propertyType with
    | .union types =>
        let filteredTypes := types.filter fun t => !(isUndefinedOrNullPrimitive t)
        match filteredTypes with
        | [single] => single
        | _ :: _ :: _ => .union filteredTypes
        | [] => .union types
    | t => t
  else propertyType

/-- A `PropertyDeclaration` as consulted by `Parser.parseProperty`:
name, question token, readonly flag, initializer flag, declared type. -/
structure PropDecl where
  name : String
  hasQuestionToken : Bool
  isReadonly : Bool
  hasInitializer : Bool
  type : TypeHandle

/-- `Parser.parseProperty`: resolve the declared type, apply optional
narrowing, and package the `Property` record. -/
def parseProperty (property : PropDecl) : Except String Property := do
  let isOptional := property.hasQuestionToken
  let propertyType ← parsePropertyType property.type
  let propertyType := narrowOptionalType isOptional propertyType
  pure (Property.mk property.name propertyType isOptional
    property.isReadonly property.hasInitializer)

/-- `Parser.parseProperties`: parse each declared property in order,
propagating the first error. -/
def parseProperties : List PropDecl → Except String (List Property)
  | [] => pure []
  | p :: ps => do
      let prop ← parseProperty p
      let props ← parseProperties ps
      pure (prop :: props)

/-- A `ClassDeclaration` as consulted by `Parser.parseFile`:
optional name, exported flag, declared properties. -/
structure ClassDecl where
  name : Option String
  isExported : Bool
  properties : List PropDecl

/-- The per-class body of `Parser.parseFile`: an anonymous class is
rejected, otherwise all properties are parsed. -/
def parseClassDecl (filePath : String) (classDecl : ClassDecl) : Except String ParsedClass :=
  match classDecl.name with
  | none => Except.error ("Found anonymous class in file \x27" ++ filePath ++ "\x27")
  | some className => do
      let props ← parseProperties classDecl.properties
      pure (ParsedClass.mk className filePath true props)

/-- The `classes.map(...)` loop of `Parser.parseFile`: one shared error
channel, so the first failing class aborts the whole list. -/
def parseClassList (filePath : String) : List ClassDecl → Except String (List ParsedClass)
  | [] => pure []
  | c :: cs => do
      let parsed ← parseClassDecl filePath c
      let rest ← parseClassList filePath cs
      pure (parsed :: rest)

/-- `Parser.parseFile`: keep the exported classes and parse each one. -/
def parseFile (filePath : String) (classes : List ClassDecl) : Except String (List ParsedClass) :=
  parseClassList filePath (classes.filter fun c => c.isExported)

/-! ## Generator factory (src/gen/schema-gen.ts, src/types/generator.ts) -/

/-- `SUPPORTED_GENERATORS = ['elysia', 'typebox', 'zod'] as const`. -/
def SUPPORTED_GENERATORS : List String := ["elysia", "typebox", "zod"]

/-- `SupportedGeneratorType`, the union of the supported generator names. -/
inductive SupportedGeneratorType where
  | elysia
  | typebox
  | zod
deriving DecidableEq, Repr

/-- The string each `SupportedGeneratorType` member denotes. -/
def SupportedGeneratorType.text : SupportedGeneratorType → String
  | .elysia => "elysia"
  | .typebox => "typebox"
  | .zod => "zod"

/-- The generator implementations present in the repository. -/
inductive SchemaGeneratorImpl where
  | typeBoxGenerator (kind : TypeBoxKind)
  | zodGenerator
deriving DecidableEq, Repr

/-- `SchemaGen.createGenerator`: the factory switch handles only
`'elysia'` and `'typebox'`; everything else falls to the default branch,
which throws `Unsupported generator: <name>`. -/
def createGenerator : SupportedGeneratorType → Except String SchemaGeneratorImpl
  | .elysia => Except.ok (.typeBoxGenerator .elysia)
  | .typebox => Except.ok (.typeBoxGenerator .typebox)
  | g => Except.error ("Unsupported generator: " ++ g.text)

/-! ## Concrete fixtures used by the claim theorems -/

/-- Handle of the TypeScript `string` type. -/
def hString : TypeHandle :=
  .mk none [] none false false false false true false false "string" none none none none false none none []

/-- Handle of the TypeScript `number` type. -/
def hNumber : TypeHandle :=
  .mk none [] none false false false false false true false "number" none none none none false none none []

/-- Handle of the TypeScript `undefined` type. -/
def hUndefined : TypeHandle :=
  .mk none [] none false false false true false false false "undefined" none none none none false none none []

/-- Handle of the TypeScript `null` type. -/
def hNull : TypeHandle :=
  .mk none [] none false false true false false false false "null" none none none none false none none []

/-- Handle of the union type `string | undefined`. -/
def hUnionStringUndefined : TypeHandle :=
  .mk none [] none false false false false false false false "string | undefined"
    none none (some [hString, hUndefined]) none false none none []

/-- Handle of the union type `number | undefined`. -/
def hUnionNumberUndefined : TypeHandle :=
  .mk none [] none false false false false false false false "number | undefined"
    none none (some [hNumber, hUndefined]) none false none none []

/-- Handle of a degenerate union whose only member is `undefined`. -/
def hUnionUndefOnly : TypeHandle :=
  .mk none [] none false false false false false false false "undefined"
    none none (some [hUndefined]) none false none none []

/-- Handle of the union type `undefined | null`. -/
def hUnionUndefNull : TypeHandle :=
  .mk none [] none false false false false false false false "undefined | null"
    none none (some [hUndefined, hNull]) none false none none []

/-- A handle matching none of the resolver checks: its textual form is
`txt` and every structural query comes back negative. -/
def hUnsupported (txt : String) : TypeHandle :=
  .mk none [] none false false false false false false false txt none none none none false none none []

/-- An object handle with the given text, index signature value types and
named property symbols, and every earlier resolver check negative. -/
def objectHandle (txt : String) (sIdx nIdx : Option TypeHandle) (syms : List SymbolEntry) : TypeHandle :=
  .mk none [] none false false false false false false false txt none none none none true sIdx nIdx syms

/-- The class declaration `User` with `id: string` and `age?: number`
(its question-marked type handle is `number | undefined`, as the
TypeScript compiler reports it). -/
def userClassDecl : ClassDecl :=
  ClassDecl.mk (some "User") true
    [PropDecl.mk "id" false false false hString,
     PropDecl.mk "age" true false false hUnionNumberUndefined]

/-- The parsed form of `userClassDecl`. -/
def userParsed : ParsedClass :=
  ParsedClass.mk "User" "user.ts" true
    [Property.mk "id" (PropertyType.primitive .string) false false false,
     Property.mk "age" (PropertyType.primitive .number) true false false]

/-- An exported class with a property whose type matches no resolver rule. -/
def badClass : ClassDecl :=
  ClassDecl.mk (some "Bad") true [PropDecl.mk "x" false false false (hUnsupported "FancyType")]

/-- An exported class that parses without error. -/
def goodClass : ClassDecl :=
  ClassDecl.mk (some "Good") true [PropDecl.mk "id" false false false hString]

/-! ## Shared helper lemmas -/

/-- Rendering a concatenated member list concatenates the rendered lists. -/
theorem zTypeList_append (xs ys : List PropertyType) :
    zTypeList (xs ++ ys) = zTypeList xs ++ zTypeList ys := by
  induction xs with
  | nil => rfl
  | cons h t ih => simp [zTypeList, ih]

/-- The enum-value rendering of string literal members, pointwise. -/
theorem map_enum_str (tl : List String) :
    List.map (tbUnionEnumValue ∘ literalValueOf ∘ fun s => PropertyType.literal (LiteralValue.str s)) tl
      = List.map (fun s => "\x27" ++ s ++ "\x27") tl := by
  induction tl with
  | nil => rfl
  | cons a t ih => simp [ih, tbUnionEnumValue, literalValueOf, Function.comp]

/-- The enum-value rendering of number literal members, pointwise. -/
theorem map_enum_num (tl : List Int) :
    List.map (tbUnionEnumValue ∘ literalValueOf ∘ fun n => PropertyType.literal (LiteralValue.num n)) tl
      = List.map (fun n => toString n) tl := by
  induction tl with
  | nil => rfl
  | cons a t ih => simp [ih, tbUnionEnumValue, literalValueOf, Function.comp]

/-- The enum-value rendering of boolean literal members, pointwise. -/
theorem map_enum_bool (tl : List Bool) :
    List.map (tbUnionEnumValue ∘ literalValueOf ∘ fun b => PropertyType.literal (LiteralValue.bool b)) tl
      = List.map (fun b => if b then "true" else "false") tl := by
  induction tl with
  | nil => rfl
  | cons a t ih => simp [ih, tbUnionEnumValue, literalValueOf, Function.comp]

/-- An object handle with a string index signature and no named properties
resolves to a string-keyed record of the resolved index value type. -/
theorem parse_stringIndex_ok (txt : String) (vh : TypeHandle) (nIdx : Option TypeHandle)
    (hD : txt ≠ "Date") (vt : PropertyType) (hv : parsePropertyType vh = .ok vt) :
    parsePropertyType (objectHandle txt (some vh) nIdx []) =
      .ok (.record (.primitive .string) vt) := by
  unfold objectHandle parsePropertyType
  rw [if_neg hD]
  simp [hv]

/-- Error propagation from the index value type of a string-indexed record. -/
theorem parse_stringIndex_err (txt : String) (vh : TypeHandle) (nIdx : Option TypeHandle)
    (hD : txt ≠ "Date") (e : String) (hv : parsePropertyType vh = .error e) :
    parsePropertyType (objectHandle txt (some vh) nIdx []) = .error e := by
  unfold objectHandle parsePropertyType
  rw [if_neg hD]
  simp [hv]

/-- An object handle with a number index signature, no string index
signature and no named properties resolves to a number-keyed record. -/
theorem parse_numberIndex_ok (txt : String) (vh : TypeHandle)
    (hD : txt ≠ "Date") (vt : PropertyType) (hv : parsePropertyType vh = .ok vt) :
    parsePropertyType (objectHandle txt none (some vh) []) =
      .ok (.record (.primitive .number) vt) := by
  unfold objectHandle parsePropertyType
  rw [if_neg hD]
  simp [hv]

/-- A failing class declaration anywhere in the list makes the whole
class-list parse fail. -/
theorem parseClassList_error_of_mem (fp : String) (l : List ClassDecl) (c : ClassDecl) (e : String)
    (hmem : c ∈ l) (herr : parseClassDecl fp c = .error e) :
    ∃ e2, parseClassList fp l = .error e2 := by
  induction l with
  | nil => exact absurd hmem (List.not_mem_nil c)
  | cons hd tl ih =>
    cases hhd : parseClassDecl fp hd with
    | error e1 => exact ⟨e1, by simp only [parseClassList, hhd]; rfl⟩
    | ok parsed =>
      have hct : c ∈ tl := by
        rcases List.mem_cons.mp hmem with hc | hc
        · rw [hc] at herr
          rw [herr] at hhd
          exact absurd hhd (by simp)
        · exact hc
      rcases ih hct with ⟨e2, h2⟩
      cases hrest : parseClassList fp tl with
      | error e3 => exact ⟨e3, by simp only [parseClassList, hhd, hrest]; rfl⟩
      | ok rest =>
        rw [hrest] at h2
        exact absurd h2 (by simp)

/-- A failing exported class makes `parseFile` fail for the whole file. -/
theorem parseFile_error_of_class_failure (fp : String) (classes : List ClassDecl) (c : ClassDecl)
    (e : String) (hmem : c ∈ classes) (hexp : c.isExported = true)
    (herr : parseClassDecl fp c = .error e) :
    ∃ e2, parseFile fp classes = .error e2 := by
  have hmf : c ∈ classes.filter fun cl => cl.isExported := List.mem_filter.mpr ⟨hmem, hexp⟩
  exact parseClassList_error_of_mem fp _ c e hmf herr

/-! ## Claim theorems -/

/-- Claim C1, counterexample: for an optional property whose resolved type
is the union consisting only of `primitive(undefined)`, the narrowing
step stores the original union unchanged, so an undefined member is NOT
removed — the claim that every undefined/null member is removed for
every optional union-typed property is false at this input. -/
theorem claim_C1_counterexample :
    parseProperty (PropDecl.mk "maybe" true false false hUnionUndefOnly)
      = Except.ok (Property.mk "maybe"
          (PropertyType.union [PropertyType.primitive .undefined]) true false false)
    ∧ [PropertyType.primitive PrimitiveKind.undefined].any isUndefinedOrNullPrimitive = true :=
  ⟨rfl, rfl⟩

/-- Claim C1 (amended): for an optional property whose resolved type is a
union, the narrowing step removes the `primitive(undefined)` and
`primitive(null)` members whenever at least one member survives the
filter: a single survivor is stored directly (the singleton union is
collapsed), several survivors are stored as a union of exactly the
survivors in order; when no member survives, the original union is kept
unchanged.  In particular, a property whose raw resolved type is
`union(primitive(string), primitive(undefined))` stores
`primitive(string)`. -/
theorem claim_C1_amended :
    (∀ (types : List PropertyType) (single : PropertyType),
        types.filter (fun t => !(isUndefinedOrNullPrimitive t)) = [single] →
        narrowOptionalType true (PropertyType.union types) = single)
    ∧ (∀ (types : List PropertyType) (f1 f2 : PropertyType) (fs : List PropertyType),
        types.filter (fun t => !(isUndefinedOrNullPrimitive t)) = f1 :: f2 :: fs →
        narrowOptionalType true (PropertyType.union types) = PropertyType.union (f1 :: f2 :: fs))
    ∧ (∀ types : List PropertyType,
        types.filter (fun t => !(isUndefinedOrNullPrimitive t)) = [] →
        narrowOptionalType true (PropertyType.union types) = PropertyType.union types)
    ∧ parseProperty (PropDecl.mk "age" true false false hUnionStringUndefined)
        = Except.ok (Property.mk "age" (PropertyType.primitive .string) true false false) := by
  refine ⟨?_, ?_, ?_, rfl⟩
  · intro types single h
    simp [narrowOptionalType, h]
  · intro types f1 f2 fs h
    simp [narrowOptionalType, h]
  · intro types h
    simp [narrowOptionalType, h]

/-- Witness for claim C1 (amended) at concrete unions: one survivor
collapses, several survivors stay a union, no survivor keeps the
original union. -/
theorem claim_C1_witness :
    narrowOptionalType true
        (PropertyType.union [PropertyType.primitive .string, PropertyType.primitive .undefined])
      = PropertyType.primitive .string
    ∧ narrowOptionalType true
        (PropertyType.union
          [PropertyType.primitive .string, PropertyType.primitive .number,
           PropertyType.primitive .nullKind])
      = PropertyType.union [PropertyType.primitive .string, PropertyType.primitive .number]
    ∧ narrowOptionalType true (PropertyType.union [PropertyType.primitive .nullKind])
      = PropertyType.union [PropertyType.primitive .nullKind] :=
  ⟨claim_C1_amended.1 _ _ rfl, claim_C1_amended.2.1 _ _ _ _ rfl, claim_C1_amended.2.2.1 _ rfl⟩

/-- Claim C2, counterexample: generating a class with an empty-intersection
property does not fail; the Zod backend silently renders the empty
intersection as its never-type constructor `z.never()` inside a complete
schema string. -/
theorem claim_C2_counterexample :
    zGenerate (ParsedClass.mk "Weird" "weird.ts" true
        [Property.mk "x" (PropertyType.intersection []) false false false])
      = "import \x7b z \x7d from \"zod\"\n\nexport const weirdSchema = z.object(\x7b \n  x: z.never() \x7d);" :=
  rfl

/-- Claim C2 (amended): rendering an empty intersection does not fail fast
at generation time; the Zod backend renders it as its never-type
constructor `z.never()` and the TypeBox backend renders it as
`t.Intersect([])`. -/
theorem claim_C2_amended :
    zType (PropertyType.intersection []) = "z.never()"
    ∧ tbType (PropertyType.intersection []) = "t.Intersect([])" :=
  ⟨rfl, rfl⟩

/-- Claim C3, counterexample: for an optional property whose resolved type
is `union(primitive(undefined), primitive(null))`, the stored type is
the original two-member union, not the IR never node. -/
theorem claim_C3_counterexample :
    parseProperty (PropDecl.mk "ghost" true false false hUnionUndefNull)
      = Except.ok (Property.mk "ghost"
          (PropertyType.union [PropertyType.primitive .undefined, PropertyType.primitive .nullKind])
          true false false)
    ∧ (PropertyType.union
        [PropertyType.primitive PrimitiveKind.undefined,
         PropertyType.primitive PrimitiveKind.nullKind]).isNeverKind = false :=
  ⟨rfl, rfl⟩

/-- Claim C3 (amended): for an optional property whose resolved type is a
union containing only `primitive(undefined)`/`primitive(null)` members,
the narrowing step leaves the stored type as the original union — it
does not produce the IR never node. -/
theorem claim_C3_amended :
    ∀ types : List PropertyType,
      (∀ t ∈ types, isUndefinedOrNullPrimitive t = true) →
      narrowOptionalType true (PropertyType.union types) = PropertyType.union types := by
  intro types h
  have hf : types.filter (fun t => !(isUndefinedOrNullPrimitive t)) = [] := by
    rw [List.filter_eq_nil_iff]
    intro a ha
    simp [h a ha]
  simp [narrowOptionalType, hf]

/-- Witness for claim C3 (amended) at the union of `undefined` and
`null`. -/
theorem claim_C3_witness :
    narrowOptionalType true
        (PropertyType.union [PropertyType.primitive .undefined, PropertyType.primitive .nullKind])
      = PropertyType.union [PropertyType.primitive .undefined, PropertyType.primitive .nullKind] :=
  claim_C3_amended _ (by decide)

/-- Claim C4, counterexample: an unsupported property type in one exported
class makes `parseFile` fail for the entire file, in either order, so
the unrelated class in the same file produces no output — even though
that class parses fine on its own. -/
theorem claim_C4_counterexample :
    parseFile "models.ts" [badClass, goodClass] = Except.error "Unsupported type: FancyType"
    ∧ parseFile "models.ts" [goodClass, badClass] = Except.error "Unsupported type: FancyType"
    ∧ parseFile "models.ts" [goodClass]
        = Except.ok [ParsedClass.mk "Good" "models.ts" true
            [Property.mk "id" (PropertyType.primitive .string) false false false]] :=
  ⟨rfl, rfl, rfl⟩

/-- Claim C4 (amended): when resolving a property fails, the error does
carry the offending type's textual form (`Unsupported type: <text>`),
but the failure is not contained to that class: any exported class
whose parse fails makes `parseFile` fail for the whole file, so no
class in that file produces output. -/
theorem claim_C4_amended :
    (∀ txt : String, txt ≠ "Date" →
        parsePropertyType (hUnsupported txt) = Except.error ("Unsupported type: " ++ txt))
    ∧ (∀ (fp : String) (classes : List ClassDecl) (c : ClassDecl) (e : String),
        c ∈ classes → c.isExported = true → parseClassDecl fp c = Except.error e →
        ∃ e2, parseFile fp classes = Except.error e2) := by
  constructor
  · intro txt hD
    unfold hUnsupported parsePropertyType
    rw [if_neg hD]
    rfl
  · exact fun fp classes c e hm hx he => parseFile_error_of_class_failure fp classes c e hm hx he

/-- Witness for claim C4 (amended) at the concrete failing class. -/
theorem claim_C4_witness :
    parsePropertyType (hUnsupported "FancyType") = Except.error "Unsupported type: FancyType"
    ∧ ∃ e2, parseFile "models.ts" [badClass, goodClass] = Except.error e2 :=
  ⟨(claim_C4_amended.1 "FancyType" (by decide)).trans rfl,
   claim_C4_amended.2 "models.ts" [badClass, goodClass] badClass "Unsupported type: FancyType"
     (List.mem_cons_self _ _) rfl rfl⟩

/-- Claim C5: on the elysia TypeBox backend, the parsed class
`User (id: string; age?: number)` — as produced by the parser itself
from the corresponding class declaration — generates exactly the elysia
import, a blank line, and the `userSchema` object schema with the
bare `id` property and the `t.Optional`-wrapped `age` property. -/
theorem claim_C5 :
    parseFile "user.ts" [userClassDecl] = Except.ok [userParsed]
    ∧ tbGenerate TypeBoxKind.elysia userParsed
      = "import \x7b t \x7d from \"elysia\"\n\nexport const userSchema = t.Object(\x7b \n  id: t.String(),\n  age: t.Optional(t.Number()) \x7d);" :=
  ⟨rfl, rfl⟩

/-- Claim C6: on the TypeBox backend, a non-empty union of literals with
one shared runtime value type renders via the compact
`t.UnionEnum([...])` constructor — string values single-quoted, numeric
values bare, boolean values bare — while a union with a non-literal
member or with two literal members of different runtime types renders
via the generic `t.Union([...])` over the recursively rendered members
in declaration order; and the union arm of the renderer is exactly
`generateUnionType`. -/
theorem claim_C6 :
    (∀ ts : List PropertyType, tbType (PropertyType.union ts) = tbUnionType ts)
    ∧ (∀ ss : List String, ss ≠ [] →
        tbUnionType (ss.map fun s => PropertyType.literal (LiteralValue.str s))
          = "t.UnionEnum([" ++ String.intercalate ", " (ss.map fun s => "\x27" ++ s ++ "\x27") ++ "])")
    ∧ (∀ ns : List Int, ns ≠ [] →
        tbUnionType (ns.map fun n => PropertyType.literal (LiteralValue.num n))
          = "t.UnionEnum([" ++ String.intercalate ", " (ns.map fun n => toString n) ++ "])")
    ∧ (∀ (v0 : LiteralValue) (vs : List LiteralValue),
        (∀ v ∈ vs, typeofLiteral v = typeofLiteral v0) →
        tbUnionType ((v0 :: vs).map PropertyType.literal)
          = "t.UnionEnum([" ++ String.intercalate ", " ((v0 :: vs).map tbUnionEnumValue) ++ "])")
    ∧ (∀ ts : List PropertyType,
        ((∃ t ∈ ts, isLiteralKind t = false) ∨
          (∃ t1 ∈ ts, ∃ t2 ∈ ts, ∃ v1 v2,
            t1 = PropertyType.literal v1 ∧ t2 = PropertyType.literal v2 ∧
            typeofLiteral v1 ≠ typeofLiteral v2)) →
        tbUnionType ts = "t.Union([" ++ String.intercalate ", " (tbTypeList ts) ++ "])") := by
  refine ⟨fun ts => rfl, ?_, ?_, ?_, ?_⟩
  · intro ss hne
    cases ss with
    | nil => exact absurd rfl hne
    | cons a tl =>
      simp [tbUnionType, isLiteralKind, literalValueOf, typeofLiteral, tbUnionEnumValue,
        List.all_map, List.map_map, Function.comp, map_enum_str]
  · intro ns hne
    cases ns with
    | nil => exact absurd rfl hne
    | cons a tl =>
      simp [tbUnionType, isLiteralKind, literalValueOf, typeofLiteral, tbUnionEnumValue,
        List.all_map, List.map_map, Function.comp, map_enum_num]
  · intro v0 vs hhom
    have hmapAll : ∀ l : List LiteralValue,
        List.map literalValueOf (List.map PropertyType.literal l) = l := by
      intro l
      induction l with
      | nil => rfl
      | cons a t ih => simp [literalValueOf, ih]
    have hcond1 : (List.map PropertyType.literal (v0 :: vs)).all isLiteralKind = true
        ∧ 0 < (List.map PropertyType.literal (v0 :: vs)).length := by
      constructor
      · simp [List.all_map, Function.comp, isLiteralKind]
      · simp
    have hcond2 : ((v0 :: vs).all fun v => typeofLiteral v == typeofLiteral v0) = true := by
      rw [List.all_eq_true]
      intro v hv
      rcases List.mem_cons.mp hv with h | h
      · rw [h]
        exact beq_self_eq_true _
      · exact beq_iff_eq.mpr (hhom v h)
    unfold tbUnionType
    rw [if_pos hcond1]
    dsimp only
    rw [hmapAll (v0 :: vs)]
    dsimp only
    rw [if_pos hcond2]
  · intro ts h
    unfold tbUnionType
    split
    case isTrue hguard =>
      dsimp only
      split
      case h_1 => rfl
      case h_2 v0 rest heq =>
        split
        case isTrue hall =>
          exfalso
          rcases h with ⟨t, ht, hlit⟩ | ⟨t1, h1, t2, h2, v1, v2, e1, e2, hne⟩
          · have hat := List.all_eq_true.mp hguard.1 t ht
            rw [hlit] at hat
            exact Bool.noConfusion hat
          · have hv1 : v1 ∈ ts.map literalValueOf := by
              refine List.mem_map.mpr ⟨t1, h1, ?_⟩
              rw [e1]
              rfl
            have hv2 : v2 ∈ ts.map literalValueOf := by
              refine List.mem_map.mpr ⟨t2, h2, ?_⟩
              rw [e2]
              rfl
            have b1 := List.all_eq_true.mp hall v1 hv1
            have b2 := List.all_eq_true.mp hall v2 hv2
            exact hne ((eq_of_beq b1).trans (eq_of_beq b2).symm)
        case isFalse => rfl
    case isFalse => rfl

/-- Witness for claim C6 at the spec's concrete unions: three string
literals enumerate compactly, two number literals enumerate compactly,
a homogeneous boolean literal union enumerates compactly, and a mixed
string/number literal union falls back to the generic constructor. -/
theorem claim_C6_witness :
    tbUnionType [PropertyType.literal (LiteralValue.str "a"), PropertyType.literal (LiteralValue.str "b"),
        PropertyType.literal (LiteralValue.str "c")]
      = "t.UnionEnum([\x27a\x27, \x27b\x27, \x27c\x27])"
    ∧ tbUnionType [PropertyType.literal (LiteralValue.num 1), PropertyType.literal (LiteralValue.num 2)]
      = "t.UnionEnum([1, 2])"
    ∧ tbUnionType [PropertyType.literal (LiteralValue.bool true), PropertyType.literal (LiteralValue.bool false)]
      = "t.UnionEnum([true, false])"
    ∧ tbUnionType [PropertyType.literal (LiteralValue.str "a"), PropertyType.literal (LiteralValue.num 1)]
      = "t.Union([t.Literal(\x27a\x27), t.Literal(1)])" :=
  ⟨(claim_C6.2.1 ["a", "b", "c"] (by decide)).trans rfl,
   (claim_C6.2.2.1 [1, 2] (by decide)).trans rfl,
   (claim_C6.2.2.2.1 (LiteralValue.bool true) [LiteralValue.bool false] (by decide)).trans rfl,
   (claim_C6.2.2.2.2 [PropertyType.literal (LiteralValue.str "a"), PropertyType.literal (LiteralValue.num 1)]
     (Or.inr ⟨PropertyType.literal (LiteralValue.str "a"), by simp,
       PropertyType.literal (LiteralValue.num 1), by simp,
       LiteralValue.str "a", LiteralValue.num 1, rfl, rfl, by decide⟩)).trans rfl⟩

/-- Claim C7: on the Zod backend, a two-member intersection renders as one
binary `z.intersection(a, b)` call; appending a further member to an
intersection of at least two members wraps the previous rendering as
the first argument of a new binary call (left fold); the intersection
arm of the renderer is exactly `generateIntersectionType`; and the
concrete two-object intersection renders as a single combinator call
with exactly two arguments. -/
theorem claim_C7 :
    (∀ a b : PropertyType,
        zIntersectionType [a, b] = "z.intersection(" ++ zType a ++ ", " ++ zType b ++ ")")
    ∧ (∀ (ts : List PropertyType) (t : PropertyType), 2 ≤ ts.length →
        zIntersectionType (ts ++ [t])
          = "z.intersection(" ++ zIntersectionType ts ++ ", " ++ zType t ++ ")")
    ∧ (∀ ts : List PropertyType, zType (PropertyType.intersection ts) = zIntersectionType ts)
    ∧ zIntersectionType
        [PropertyType.object [Property.mk "a" (PropertyType.primitive .string) false false false],
         PropertyType.object [Property.mk "b" (PropertyType.primitive .number) false false false]]
      = "z.intersection(z.object(\x7b\n  a: z.string()\n\x7d), z.object(\x7b\n  b: z.number()\n\x7d))" := by
  refine ⟨fun a b => rfl, ?_, ?_, rfl⟩
  · intro ts t hlen
    match ts with
    | a :: b :: rest =>
      simp [zIntersectionType, zTypeList_append, List.foldl_append, zTypeList]
  · intro ts
    cases ts with
    | nil => rfl
    | cons a l => cases l <;> rfl

/-- Witness for claim C7 at a three-member intersection: the third member
wraps the binary rendering of the first two. -/
theorem claim_C7_witness :
    zIntersectionType
        [PropertyType.primitive .string, PropertyType.primitive .boolean, PropertyType.primitive .number]
      = "z.intersection(z.intersection(z.string(), z.boolean()), z.number())" :=
  (claim_C7.2.1 [PropertyType.primitive .string, PropertyType.primitive .boolean]
    (PropertyType.primitive .number) (by decide)).trans rfl

/-- Claim C8: on the Zod backend, an optional property renders in the
trailing-wrapper form — the base type first, then `.optional()`
appended — and in particular an optional number property `age` renders
as `age: z.number().optional()`. -/
theorem claim_C8 :
    (∀ (name : String) (type : PropertyType) (ro dv : Bool),
        zProperty (Property.mk name type true ro dv)
          = "  " ++ name ++ ": " ++ (zType type ++ ".optional()"))
    ∧ zProperty (Property.mk "age" (PropertyType.primitive .number) true false false)
      = "  age: z.number().optional()" :=
  ⟨fun _ _ _ _ => rfl, rfl⟩

/-- Claim C9: a structural object handle (one that reaches the
object-or-record rule: no alias, every earlier discriminator negative,
text other than `Date`) with a string index signature and zero named
properties resolves to `record(primitive(string), resolve(indexValue))`;
every successful resolution of such a handle is a string-keyed record
(never `object([])`); and with no string index signature but a number
index signature it resolves to the number-keyed record. -/
theorem claim_C9 :
    ∀ (txt : String) (vh : TypeHandle) (nIdx : Option TypeHandle), txt ≠ "Date" →
      (∀ vt, parsePropertyType vh = Except.ok vt →
          parsePropertyType (objectHandle txt (some vh) nIdx [])
            = Except.ok (PropertyType.record (PropertyType.primitive .string) vt))
      ∧ (∀ r, parsePropertyType (objectHandle txt (some vh) nIdx []) = Except.ok r →
          ∃ vt, r = PropertyType.record (PropertyType.primitive .string) vt
            ∧ parsePropertyType vh = Except.ok vt)
      ∧ (∀ vt, parsePropertyType vh = Except.ok vt →
          parsePropertyType (objectHandle txt none (some vh) [])
            = Except.ok (PropertyType.record (PropertyType.primitive .number) vt)) := by
  intro txt vh nIdx hD
  refine ⟨fun vt hv => parse_stringIndex_ok txt vh nIdx hD vt hv, ?_,
    fun vt hv => parse_numberIndex_ok txt vh hD vt hv⟩
  intro r hr
  cases hv : parsePropertyType vh with
  | ok vt =>
    rw [parse_stringIndex_ok txt vh nIdx hD vt hv] at hr
    exact ⟨vt, (Except.ok.injEq _ _ |>.mp hr).symm, rfl⟩
  | error e =>
    rw [parse_stringIndex_err txt vh nIdx hD e hv] at hr
    exact absurd hr (by simp)

/-- Witness for claim C9 at concrete index signature handles. -/
theorem claim_C9_witness :
    parsePropertyType (objectHandle "indexed" (some hNumber) none [])
      = Except.ok (PropertyType.record (PropertyType.primitive .string) (PropertyType.primitive .number))
    ∧ parsePropertyType (objectHandle "indexed" none (some hString) [])
      = Except.ok (PropertyType.record (PropertyType.primitive .number) (PropertyType.primitive .string)) :=
  ⟨(claim_C9 "indexed" hNumber none (by decide)).1 _ rfl,
   (claim_C9 "indexed" hString none (by decide)).2.2 _ rfl⟩

/-- Claim C10: although `zod` is listed in `SUPPORTED_GENERATORS`, the
generator factory throws `Unsupported generator: zod` for it — the only
implementations ever returned are the two TypeBox generators, so the
Zod generator is not selectable through the pipeline. -/
theorem claim_C10 :
    createGenerator SupportedGeneratorType.zod = Except.error "Unsupported generator: zod"
    ∧ "zod" ∈ SUPPORTED_GENERATORS
    ∧ ∀ g impl, createGenerator g = Except.ok impl →
        impl = SchemaGeneratorImpl.typeBoxGenerator TypeBoxKind.elysia
        ∨ impl = SchemaGeneratorImpl.typeBoxGenerator TypeBoxKind.typebox := by
  refine ⟨rfl, by decide, ?_⟩
  intro g impl h
  cases g with
  | elysia => exact Or.inl (Except.ok.injEq _ _ |>.mp h).symm
  | typebox => exact Or.inr (Except.ok.injEq _ _ |>.mp h).symm
  | zod => exact absurd h (by simp [createGenerator])

/-- Witness for claim C10: the elysia configuration yields the elysia
TypeBox generator, which is one of the two TypeBox implementations. -/
theorem claim_C10_witness :
    createGenerator SupportedGeneratorType.zod = Except.error "Unsupported generator: zod"
    ∧ (SchemaGeneratorImpl.typeBoxGenerator TypeBoxKind.elysia
          = SchemaGeneratorImpl.typeBoxGenerator TypeBoxKind.elysia
        ∨ SchemaGeneratorImpl.typeBoxGenerator TypeBoxKind.elysia
          = SchemaGeneratorImpl.typeBoxGenerator TypeBoxKind.typebox) :=
  ⟨claim_C10.1, claim_C10.2.2 SupportedGeneratorType.elysia _ rfl⟩
